import Mathlib

/- Shallow embedding of the WebAssembly-based plugin system: the host-side
session lifecycle (runtime package: Plugin, LoadPlugin, Init/Execute/Cleanup/
Close), the plugin stores (fluid package), the HTTP gateway (cmd/server),
the version-checking demo host, and the two C++ plugin modules
(plugins/hello/hello.cpp and plugin_abi.cpp), translated from the Go and C++
sources. The execution engine (WasmEdge) is modelled as an explicit step
function on a module-state type, and every host operation additionally
returns the trace of engine interactions it performed, so that properties
such as "the call is never forwarded to the engine" are statable. -/

/-- Wrap an integer into the signed 32-bit range, as a wasm i32 result or a
Go int32 conversion does. -/
def wrap32 (n : Int) : Int := (n + 2147483648) % 4294967296 - 2147483648

/-- One invocation forwarded to the execution engine: the export name and the
i32 arguments, exactly as passed to vm.Execute in the Go sources. -/
structure EngineCall where
  fn : String
  args : List Int
deriving Repr, DecidableEq

/-- The engine's behaviour, as consumed by the host: vm.Execute(fn, args) on
module state σ yields either an engine error or a list of result values,
together with the updated module state. -/
def EngineStep (σ : Type) : Type :=
  String → List Int → σ → Except String (List Int) × σ

/- ===== ABI error codes (runtime package constants) ===== -/

def ABISuccess : Int := 0
def ABIErrorNotInitialized : Int := -1
def ABIErrorAlreadyInitialized : Int := -2
def ABIErrorInvalidInput : Int := -3
def ABIErrorInternal : Int := -4

/-- abiErrorString from the runtime package: converts ABI error codes to
human-readable strings. -/
def abiErrorString (code : Int) : String :=
  if code = 0 then "success"
  else if code = -1 then "ABI_ERROR_NOT_INITIALIZED"
  else if code = -2 then "ABI_ERROR_ALREADY_INITIALIZED"
  else if code = -3 then "ABI_ERROR_INVALID_INPUT"
  else if code = -4 then "ABI_ERROR_INTERNAL"
  else "unknown error code " ++ toString code

/- ===== Plugin (runtime package) ===== -/

/-- The runtime.Plugin struct: original file path, the VM (none models a nil
pointer, i.e. a closed plugin; some s carries the instantiated module state),
and whether the WasmEdge configuration is still held (false models nil). -/
structure Plugin (σ : Type) where
  path : String
  vm : Option σ
  config : Bool
deriving Repr, DecidableEq

/-- Plugin.Init: calls the exported init function; any non-zero return code
is an error. Returns the outcome, the updated plugin, and the engine calls
performed. -/
def Plugin.Init (step : EngineStep σ) (p : Plugin σ) :
    Except String Unit × Plugin σ × List EngineCall :=
  match p.vm with
  | none => (Except.error "plugin is closed", p, [])
  | some s =>
    let r := step "init" [] s
    let outcome : Except String Unit :=
      match r.1 with
      | Except.error e =>
          Except.error ("failed to execute init() for " ++ p.path ++ ": " ++ e)
      | Except.ok [] =>
          Except.error ("init() did not return a value for " ++ p.path)
      | Except.ok (v :: _) =>
          if v ≠ ABISuccess then
            Except.error ("init() returned error code " ++ toString v ++ " for " ++
              p.path ++ ": " ++ abiErrorString v)
          else Except.ok ()
    (outcome, { p with vm := some r.2 }, [EngineCall.mk "init" []])

/-- Plugin.Execute: calls the exported process function with int32(input); a
negative return value is surfaced as an error carrying the numeric code. -/
def Plugin.Execute (step : EngineStep σ) (p : Plugin σ) (input : Int) :
    Except String Int × Plugin σ × List EngineCall :=
  match p.vm with
  | none => (Except.error "plugin is closed", p, [])
  | some s =>
    let r := step "process" [wrap32 input] s
    let outcome : Except String Int :=
      match r.1 with
      | Except.error e =>
          Except.error ("failed to execute process(" ++ toString input ++ ") for " ++
            p.path ++ ": " ++ e)
      | Except.ok [] =>
          Except.error ("process() did not return a value for " ++ p.path)
      | Except.ok (v :: _) =>
          if v < 0 then
            Except.error ("process() returned error code " ++ toString v ++ " for " ++
              p.path ++ ": " ++ abiErrorString v)
          else Except.ok v
    (outcome, { p with vm := some r.2 }, [EngineCall.mk "process" [wrap32 input]])

/-- Plugin.Cleanup: calls the exported cleanup function; any non-zero return
code is an error. -/
def Plugin.Cleanup (step : EngineStep σ) (p : Plugin σ) :
    Except String Unit × Plugin σ × List EngineCall :=
  match p.vm with
  | none => (Except.error "plugin is closed", p, [])
  | some s =>
    let r := step "cleanup" [] s
    let outcome : Except String Unit :=
      match r.1 with
      | Except.error e =>
          Except.error ("failed to execute cleanup() for " ++ p.path ++ ": " ++ e)
      | Except.ok [] =>
          Except.error ("cleanup() did not return a value for " ++ p.path)
      | Except.ok (v :: _) =>
          if v ≠ ABISuccess then
            Except.error ("cleanup() returned error code " ++ toString v ++ " for " ++
              p.path ++ ": " ++ abiErrorString v)
          else Except.ok ()
    (outcome, { p with vm := some r.2 }, [EngineCall.mk "cleanup" []])

/-- Resource-release actions performed by Plugin.Close against the engine. -/
inductive ReleaseEvent
  | vmRelease
  | configRelease
deriving Repr, DecidableEq

/-- Plugin.Close: releases the VM and the configuration if still held, and
nils both fields; returns the release actions performed. -/
def Plugin.Close (p : Plugin σ) : Plugin σ × List ReleaseEvent :=
  let t1 : List ReleaseEvent :=
    match p.vm with
    | some _ => [ReleaseEvent.vmRelease]
    | none => []
  let t2 : List ReleaseEvent :=
    if p.config then [ReleaseEvent.configRelease] else []
  ({ p with vm := none, config := false }, t1 ++ t2)

/-- Plugin.Path: returns the original file path of the loaded plugin. -/
def Plugin.Path (p : Plugin σ) : String := p.path

/-- Calling Close n times in sequence, accumulating the release actions. -/
def closeTimes (p : Plugin σ) : Nat → Plugin σ × List ReleaseEvent
  | 0 => (p, [])
  | n + 1 =>
    let r1 := p.Close
    let r2 := closeTimes r1.1 n
    (r2.1, r1.2 ++ r2.2)

/- ===== LoadPlugin (runtime package) ===== -/

/-- Outcome of os.Stat on a path: success, absence, or some other failure. -/
inductive StatResult
  | found
  | notExist
  | accessDenied (msg : String)
deriving Repr, DecidableEq

/-- The error text os.Stat produces, when it fails. -/
def statErrMsg (path : String) : StatResult → Option String
  | StatResult.found => none
  | StatResult.notExist => some ("stat " ++ path ++ ": no such file or directory")
  | StatResult.accessDenied m => some m

/-- Outcomes of the engine-creation steps performed by LoadPlugin, for the
one load it carries out: whether NewConfigure, NewVMWithConfig and
GetImportModule succeed, the errors (if any) of LoadWasmFile, Validate and
Instantiate, and the module state produced by a successful instantiation. -/
structure EngineEnv (σ : Type) where
  configOk : Bool
  vmOk : Bool
  wasiOk : Bool
  loadFileErr : Option String
  validateErr : Option String
  instantiateErr : Option String
  moduleState : σ
deriving Repr, DecidableEq

/-- Engine-resource events performed by LoadPlugin. -/
inductive LoadEvent
  | acquireConfig
  | acquireVM
  | wasiLookup
  | releaseVM
  | releaseConfig
deriving Repr, DecidableEq

/-- LoadPlugin: stat the file, create the configuration, create the VM, look
up the WASI module, load the file, validate and instantiate; on any failure
the already-acquired configuration and VM are released before the error is
returned. Returns the outcome plus the trace of resource events. -/
def LoadPlugin (fs : String → StatResult) (eng : EngineEnv σ) (path : String) :
    Except String (Plugin σ) × List LoadEvent :=
  match statErrMsg path (fs path) with
  | some e => (Except.error ("plugin file not found: " ++ e), [])
  | none =>
    if !eng.configOk then
      (Except.error "failed to create WasmEdge configuration", [])
    else if !eng.vmOk then
      (Except.error "failed to create WasmEdge VM",
       [LoadEvent.acquireConfig, LoadEvent.releaseConfig])
    else if !eng.wasiOk then
      (Except.error "failed to get WASI module",
       [LoadEvent.acquireConfig, LoadEvent.acquireVM, LoadEvent.wasiLookup,
        LoadEvent.releaseVM, LoadEvent.releaseConfig])
    else
      match eng.loadFileErr with
      | some e =>
        (Except.error ("failed to load WASM file " ++ path ++ ": " ++ e),
         [LoadEvent.acquireConfig, LoadEvent.acquireVM, LoadEvent.wasiLookup,
          LoadEvent.releaseVM, LoadEvent.releaseConfig])
      | none =>
        match eng.validateErr with
        | some e =>
          (Except.error ("WASM module validation failed for " ++ path ++ ": " ++ e),
           [LoadEvent.acquireConfig, LoadEvent.acquireVM, LoadEvent.wasiLookup,
            LoadEvent.releaseVM, LoadEvent.releaseConfig])
        | none =>
          match eng.instantiateErr with
          | some e =>
            (Except.error ("WASM module instantiation failed for " ++ path ++ ": " ++ e),
             [LoadEvent.acquireConfig, LoadEvent.acquireVM, LoadEvent.wasiLookup,
              LoadEvent.releaseVM, LoadEvent.releaseConfig])
          | none =>
            (Except.ok (Plugin.mk path (some eng.moduleState) true),
             [LoadEvent.acquireConfig, LoadEvent.acquireVM, LoadEvent.wasiLookup])

/-- Every engine resource acquired in a trace has been released in it. -/
def loadTraceBalanced (tr : List LoadEvent) : Prop :=
  tr.count LoadEvent.acquireConfig = tr.count LoadEvent.releaseConfig ∧
  tr.count LoadEvent.acquireVM = tr.count LoadEvent.releaseVM

/- ===== executePlugin (cmd/server/main.go) ===== -/

/-- executePlugin: load, init, execute, then best-effort cleanup (its error
is discarded) and a deferred Close (which performs no export calls). A
cleanup failure after a successful process invocation never changes the
result. Returns the outcome and the export calls made. -/
def executePlugin (fs : String → StatResult) (eng : EngineEnv σ)
    (step : EngineStep σ) (path : String) (input : Int) :
    Except String Int × List EngineCall :=
  match LoadPlugin fs eng path with
  | (Except.error e, _) => (Except.error ("failed to load plugin: " ++ e), [])
  | (Except.ok p, _) =>
    let r1 := p.Init step
    match r1.1 with
    | Except.error e =>
        (Except.error ("failed to initialize plugin: " ++ e), r1.2.2)
    | Except.ok _ =>
      let r2 := r1.2.1.Execute step input
      let r3 := r2.2.1.Cleanup step
      let outcome : Except String Int :=
        match r2.1 with
        | Except.error e => Except.error ("failed to execute plugin: " ++ e)
        | Except.ok v => Except.ok v
      (outcome, r1.2.2 ++ r2.2.2 ++ r3.2.2)

/- ===== plugin stores (fluid package) ===== -/

/-- A Go error value returned by Resolve: either one wrapping the sentinel
ErrPluginNotFound (as fmt.Errorf with the %w verb produces), or the distinct
access-failure error that wraps only the filesystem error. -/
inductive GoErr
  | wrapsPluginNotFound (name : String)
  | accessFailure (detail : String)
deriving Repr, DecidableEq

/-- errors.Is(err, ErrPluginNotFound) on the two error shapes Resolve builds. -/
def errorIsPluginNotFound : GoErr → Bool
  | GoErr.wrapsPluginNotFound _ => true
  | GoErr.accessFailure _ => false

/-- filepath.Join on the separator-free components Resolve joins. -/
def joinPath (a b : String) : String := a ++ "/" ++ b

/-- The conventional location of a plugin binary: root/name/name.wasm. -/
def conventionPath (root name : String) : String :=
  joinPath (joinPath root name) (name ++ ".wasm")

/-- LocalPluginStore.Resolve: build basePath/name/name.wasm, stat it, and
return the path on success, an error wrapping ErrPluginNotFound when the file
does not exist, and a distinct access error on any other stat failure. It
only reads the filesystem (fs is consumed, never modified). -/
def LocalPluginStore.Resolve (basePath : String) (fs : String → StatResult)
    (pluginName : String) : Except GoErr String :=
  let wasmPath := conventionPath basePath pluginName
  match fs wasmPath with
  | StatResult.found => Except.ok wasmPath
  | StatResult.notExist => Except.error (GoErr.wrapsPluginNotFound pluginName)
  | StatResult.accessDenied m => Except.error (GoErr.accessFailure m)

/-- FluidPluginStore.Resolve: identical logic against the Fluid mount path. -/
def FluidPluginStore.Resolve (mountPath : String) (fs : String → StatResult)
    (pluginName : String) : Except GoErr String :=
  let wasmPath := conventionPath mountPath pluginName
  match fs wasmPath with
  | StatResult.found => Except.ok wasmPath
  | StatResult.notExist => Except.error (GoErr.wrapsPluginNotFound pluginName)
  | StatResult.accessDenied m => Except.error (GoErr.accessFailure m)

/- ===== gateway (cmd/server/main.go) ===== -/

/-- The character test inside isValidPluginName's loop: alphanumeric,
underscore or hyphen. -/
def isAllowedChar (c : Char) : Bool :=
  (decide ('a' ≤ c) && decide (c ≤ 'z')) ||
  (decide ('A' ≤ c) && decide (c ≤ 'Z')) ||
  (decide ('0' ≤ c) && decide (c ≤ '9')) ||
  c == '_' || c == '-'

/-- isValidPluginName: non-empty and every rune alphanumeric, underscore or
hyphen. -/
def isValidPluginName (name : String) : Bool :=
  !name.isEmpty && name.toList.all isAllowedChar

/-- The decoded JSON body of POST /run. -/
structure RunRequest where
  plugin : String
  input : Int
deriving Repr, DecidableEq

/-- The JSON body written back: either Response with an output field or
ErrorResponse with an error message. -/
inductive RespBody
  | output (n : Int)
  | errorMsg (s : String)
deriving Repr, DecidableEq

/-- An HTTP response: status code and JSON body. -/
structure HttpResponse where
  status : Nat
  body : RespBody
deriving Repr, DecidableEq

/-- writeError from the server: a JSON error body under the given status. -/
def writeError (status : Nat) (message : String) : HttpResponse :=
  HttpResponse.mk status (RespBody.errorMsg message)

/-- Externally observable actions the gateway takes beyond writing the
response: calling store.Resolve, entering LoadPlugin (session creation, which
also touches the filesystem), and forwarding export calls to the engine. -/
inductive GatewayEvent
  | resolveCall (name : String)
  | sessionLoad (path : String)
  | engineCall (c : EngineCall)
deriving Repr, DecidableEq

/-- Server.handleRun with a LocalPluginStore (the server's default store;
FluidPluginStore.Resolve is the same logic): method check, JSON decode,
name validation, Resolve, then executePlugin. The decoded body is given as
an Except (error = malformed JSON). Returns the response and the trace of
gateway actions. -/
def Server.handleRun (basePath : String) (fs : String → StatResult)
    (eng : EngineEnv σ) (step : EngineStep σ) (method : String)
    (reqBody : Except String RunRequest) : HttpResponse × List GatewayEvent :=
  if method ≠ "POST" then (writeError 405 "method not allowed", [])
  else
    match reqBody with
    | Except.error e => (writeError 400 ("invalid JSON: " ++ e), [])
    | Except.ok req =>
      if req.plugin = "" then (writeError 400 "plugin name is required", [])
      else if !isValidPluginName req.plugin then
        (writeError 400 "invalid plugin name", [])
      else
        match LocalPluginStore.Resolve basePath fs req.plugin with
        | Except.error _ =>
            (writeError 404 ("plugin not found: " ++ req.plugin),
             [GatewayEvent.resolveCall req.plugin])
        | Except.ok pluginPath =>
          let r := executePlugin fs eng step pluginPath req.input
          let events := GatewayEvent.resolveCall req.plugin ::
            GatewayEvent.sessionLoad pluginPath :: r.2.map GatewayEvent.engineCall
          match r.1 with
          | Except.error e => (writeError 500 e, events)
          | Except.ok out => (HttpResponse.mk 200 (RespBody.output out), events)

/- ===== the demo host's version check (steps 7-8 of the ABI demo main) ===== -/

/-- Outcome of the demo host's version-check block: os.Exit(1) on a major
mismatch before init is ever called, a host panic if the engine returns no
value (result[0] on an empty slice), or fall-through to the init step. -/
inductive DemoResult (σ : Type)
  | exitIncompatible (major : Int)
  | hostPanic
  | proceed (s : σ)
deriving Repr, DecidableEq

/-- The demo host's ABI version check: call get_abi_version; if the export is
absent (engine error) continue without blocking; otherwise extract the major
version by integer division by 10000 and exit before init when it differs
from the required major version 1 (hard-coded in the source). -/
def demoVersionCheck (step : EngineStep σ) (s : σ) : DemoResult σ × List EngineCall :=
  match step "get_abi_version" [] s with
  | (Except.error _, s') => (DemoResult.proceed s', [EngineCall.mk "get_abi_version" []])
  | (Except.ok [], _) => (DemoResult.hostPanic, [EngineCall.mk "get_abi_version" []])
  | (Except.ok (v :: _), s') =>
    let major := Int.tdiv v 10000
    if major ≠ 1 then
      (DemoResult.exitIncompatible major, [EngineCall.mk "get_abi_version" []])
    else (DemoResult.proceed s', [EngineCall.mk "get_abi_version" []])

/- ===== the two plugin modules ===== -/

/-- Module state of plugins/hello/hello.cpp: the static initialized flag. -/
structure HelloState where
  initialized : Bool
deriving Repr, DecidableEq

/-- The hello plugin's exports (hello.cpp): init sets the flag and returns 0;
process returns ABI_ERROR_NOT_INITIALIZED before init and otherwise the i32
value (input * 2) + 1 unchecked; cleanup clears the flag and returns 0. Any
other export name is an engine function-not-found error. -/
def helloStep : EngineStep HelloState := fun fn args s =>
  match fn, args with
  | "init", [] => (Except.ok [0], HelloState.mk true)
  | "process", [x] =>
    if s.initialized then (Except.ok [wrap32 (x * 2 + 1)], s)
    else (Except.ok [ABIErrorNotInitialized], s)
  | "cleanup", [] => (Except.ok [0], HelloState.mk false)
  | _, _ => (Except.error ("wasmedge: function not found: " ++ fn), s)

/-- Module state of plugin_abi.cpp: the static initialized flag and the
process call counter. -/
structure AbiState where
  initialized : Bool
  callCount : Int
deriving Repr, DecidableEq

/-- The reference plugin's exports (plugin_abi.cpp): get_abi_version returns
10000; init rejects double initialization; process rejects calls before init
(-1) and negative input (-3), counts the call, computes (input * 2) + 1 in
i32 arithmetic and maps a negative (overflowed) result to -4; cleanup rejects
calls before init; plus the two diagnostic exports. -/
def pluginAbiStep : EngineStep AbiState := fun fn args s =>
  match fn, args with
  | "get_abi_version", [] => (Except.ok [10000], s)
  | "init", [] =>
    if s.initialized then (Except.ok [ABIErrorAlreadyInitialized], s)
    else (Except.ok [ABISuccess], AbiState.mk true 0)
  | "process", [x] =>
    if !s.initialized then (Except.ok [ABIErrorNotInitialized], s)
    else if x < 0 then (Except.ok [ABIErrorInvalidInput], s)
    else
      let s' := AbiState.mk true (wrap32 (s.callCount + 1))
      let r := wrap32 (x * 2 + 1)
      if r < 0 then (Except.ok [ABIErrorInternal], s')
      else (Except.ok [r], s')
  | "cleanup", [] =>
    if !s.initialized then (Except.ok [ABIErrorNotInitialized], s)
    else (Except.ok [ABISuccess], AbiState.mk false 0)
  | "get_call_count", [] => (Except.ok [s.callCount], s)
  | "is_initialized", [] => (Except.ok [if s.initialized then 1 else 0], s)
  | _, _ => (Except.error ("wasmedge: function not found: " ++ fn), s)

/-- A hypothetical module identical to the reference plugin except that it
reports ABI version 20000 (major 2): the shape of module the version check
exists to reject. -/
def mismatchedStep : EngineStep AbiState := fun fn args s =>
  if fn = "get_abi_version" then (Except.ok [20000], s)
  else pluginAbiStep fn args s

/- ===== concrete instances for witnesses and scenario claims ===== -/

/-- A filesystem in which exactly the installed hello plugin binary exists at
its conventional location under the server's plugin root. -/
def helloFs : String → StatResult := fun p =>
  if p = "plugins/hello/hello.wasm" then StatResult.found else StatResult.notExist

/-- A filesystem in which every path exists. -/
def allFound : String → StatResult := fun _ => StatResult.found

/-- An engine in which every creation step succeeds, instantiating the hello
module in its fresh state. -/
def helloEnv : EngineEnv HelloState :=
  EngineEnv.mk true true true none none none (HelloState.mk false)

/-- An engine in which every creation step succeeds, instantiating a
plugin_abi-shaped module in its fresh state. -/
def abiEnv : EngineEnv AbiState :=
  EngineEnv.mk true true true none none none (AbiState.mk false 0)

/-- A hello plugin as produced by a successful LoadPlugin: loaded and
instantiated, not yet initialized. -/
def helloLoadedPlugin : Plugin HelloState :=
  Plugin.mk "plugins/hello/hello.wasm" (some (HelloState.mk false)) true

/-- A plugin_abi-shaped plugin as produced by a successful LoadPlugin: loaded
and instantiated, not yet initialized. -/
def abiLoadedPlugin : Plugin AbiState :=
  Plugin.mk "plugin_abi.wasm" (some (AbiState.mk false 0)) true

/-- A hello plugin after Close: both engine resources nil. -/
def helloClosedPlugin : Plugin HelloState :=
  Plugin.mk "plugins/hello/hello.wasm" none false

/-- Naive substring search on character lists. -/
def subChars (pat : List Char) : List Char → Bool
  | [] => pat.isEmpty
  | c :: rest => pat.isPrefixOf (c :: rest) || subChars pat rest

/-- Whether pat occurs as a contiguous substring of hay. -/
def strContainsSub (hay pat : String) : Bool := subChars pat.toList hay.toList

/- ===================== theorems ===================== -/

/-- Closing a plugin yields the structure with both resources nil. -/
theorem close_fst (p : Plugin σ) :
    p.Close.1 = Plugin.mk p.path none false := rfl

/-- Closing an already-closed plugin changes nothing and releases nothing. -/
theorem close_of_closed (p : Plugin σ) (h1 : p.vm = none) (h2 : p.config = false) :
    p.Close = (p, []) := by
  rcases p with ⟨pp, pv, pc⟩
  simp only at h1 h2
  subst h1; subst h2
  rfl

/-- After the first Close, further Close calls contribute nothing: n ≥ 1
closes have the same final state and the same total release trace as one. -/
theorem closeTimes_of_pos (p : Plugin σ) (n : Nat) (h : 1 ≤ n) :
    closeTimes p n = (p.Close.1, p.Close.2) := by
  induction n generalizing p with
  | zero => exact absurd h (by decide)
  | succ m ih =>
    cases Nat.eq_zero_or_pos m with
    | inl h0 =>
      subst h0
      show (let r1 := p.Close; let r2 := closeTimes r1.1 0; (r2.1, r1.2 ++ r2.2)) = _
      simp [closeTimes]
    | inr hpos =>
      show (let r1 := p.Close; let r2 := closeTimes r1.1 m; (r2.1, r1.2 ++ r2.2)) = _
      have hc : (p.Close.1).Close = (p.Close.1, []) := close_of_closed _ rfl rfl
      simp only [ih p.Close.1 hpos, hc, List.append_nil]

/-- C10: once Close has been called on a Plugin the closed state is
permanent: vm and config are nil, every subsequent Init, Execute or Cleanup
call returns the "plugin is closed" error, leaves the plugin unchanged and
performs no engine call, a further Close is a no-op (so no operation can
re-open the plugin), and Path still returns the original load path. -/
theorem c10_closed_is_permanent {σ : Type} (step : EngineStep σ) (p : Plugin σ)
    (input : Int) :
    p.Close.1.vm = none ∧ p.Close.1.config = false ∧
    p.Close.1.Init step = (Except.error "plugin is closed", p.Close.1, []) ∧
    p.Close.1.Execute step input = (Except.error "plugin is closed", p.Close.1, []) ∧
    p.Close.1.Cleanup step = (Except.error "plugin is closed", p.Close.1, []) ∧
    p.Close.1.Close = (p.Close.1, []) ∧
    p.Close.1.Path = p.Path :=
  ⟨rfl, rfl, rfl, rfl, rfl, rfl, rfl⟩

/-- C6: for every Plugin in any state, calling Close N ≥ 1 times produces
the same final state (Closed: vm and config nil) and the same total release
trace as calling it exactly once, and that trace releases each engine
resource at most once (no double free); every call after the first is a
no-op. -/
theorem c6_close_idempotent {σ : Type} (p : Plugin σ) (n : Nat) (h : 1 ≤ n) :
    (closeTimes p n).1 = p.Close.1 ∧
    (closeTimes p n).2 = p.Close.2 ∧
    (closeTimes p n).1.vm = none ∧
    (closeTimes p n).1.config = false ∧
    (closeTimes p n).2.count ReleaseEvent.vmRelease ≤ 1 ∧
    (closeTimes p n).2.count ReleaseEvent.configRelease ≤ 1 := by
  rw [closeTimes_of_pos p n h]
  refine ⟨rfl, rfl, rfl, rfl, ?_, ?_⟩ <;>
  · rcases p with ⟨pp, pv, pc⟩
    cases pv <;> cases pc <;> simp [Plugin.Close, List.count_cons]

/-- C6 witness: three consecutive Close calls on a freshly loaded hello
plugin behave as one. -/
theorem c6_close_idempotent_witness :
    1 ≤ 3 ∧
    ((closeTimes helloLoadedPlugin 3).1 = helloLoadedPlugin.Close.1 ∧
     (closeTimes helloLoadedPlugin 3).2 = helloLoadedPlugin.Close.2 ∧
     (closeTimes helloLoadedPlugin 3).1.vm = none ∧
     (closeTimes helloLoadedPlugin 3).1.config = false ∧
     (closeTimes helloLoadedPlugin 3).2.count ReleaseEvent.vmRelease ≤ 1 ∧
     (closeTimes helloLoadedPlugin 3).2.count ReleaseEvent.configRelease ≤ 1) :=
  ⟨by decide, c6_close_idempotent helloLoadedPlugin 3 (by decide)⟩

/-- C7: if LoadPlugin fails at any step (stat, configuration creation, VM
creation, WASI module lookup, file load, validation, or instantiation), then
every engine resource acquired in the preceding steps (configuration, VM) is
released in the returned trace before the error is returned, and no Plugin
value is produced. -/
theorem c7_load_failure_releases {σ : Type} (fs : String → StatResult)
    (eng : EngineEnv σ) (path : String) (e : String)
    (h : (LoadPlugin fs eng path).1 = Except.error e) :
    loadTraceBalanced (LoadPlugin fs eng path).2 ∧
    ∀ q, (LoadPlugin fs eng path).1 ≠ Except.ok q := by
  constructor
  · rcases eng with ⟨co, vo, wo, le, ve, ie, ms⟩
    cases hfs : fs path <;> cases co <;> cases vo <;> cases wo <;>
      cases le <;> cases ve <;> cases ie <;>
      simp_all [LoadPlugin, statErrMsg, loadTraceBalanced, List.count_cons]
  · intro q hq
    rw [h] at hq
    exact Except.noConfusion hq

/-- C7 witness: a load that fails at the missing-file step returns an error
with a balanced (empty) resource trace. -/
theorem c7_load_failure_releases_witness :
    loadTraceBalanced (LoadPlugin (fun _ => StatResult.notExist) helloEnv "x.wasm").2 ∧
    ∀ q, (LoadPlugin (fun _ => StatResult.notExist) helloEnv "x.wasm").1 ≠ Except.ok q :=
  c7_load_failure_releases (fun _ => StatResult.notExist) helloEnv "x.wasm"
    "plugin file not found: stat x.wasm: no such file or directory" rfl

/-- C5: for every plugin name and filesystem, each Resolve implementation
returns a path exactly when the file exists at the conventional location
root/name/name.wasm (and returns exactly that path); non-existence yields the
error wrapping the distinguished ErrPluginNotFound sentinel; any other stat
failure yields the distinct access error, which never matches
ErrPluginNotFound. Both Resolve embeddings are pure functions of the
filesystem: resolution never creates, modifies, or deletes anything. -/
theorem c5_resolve_contract (fs : String → StatResult) (root mount name : String) :
    ((LocalPluginStore.Resolve root fs name = Except.ok (conventionPath root name) ↔
        fs (conventionPath root name) = StatResult.found) ∧
     (∀ p, LocalPluginStore.Resolve root fs name = Except.ok p →
        p = conventionPath root name) ∧
     (fs (conventionPath root name) = StatResult.notExist →
        LocalPluginStore.Resolve root fs name =
          Except.error (GoErr.wrapsPluginNotFound name)) ∧
     (∀ m, fs (conventionPath root name) = StatResult.accessDenied m →
        LocalPluginStore.Resolve root fs name =
          Except.error (GoErr.accessFailure m)) ∧
     (∀ e, LocalPluginStore.Resolve root fs name = Except.error e →
        (errorIsPluginNotFound e = true ↔
          fs (conventionPath root name) = StatResult.notExist))) ∧
    ((FluidPluginStore.Resolve mount fs name = Except.ok (conventionPath mount name) ↔
        fs (conventionPath mount name) = StatResult.found) ∧
     (∀ p, FluidPluginStore.Resolve mount fs name = Except.ok p →
        p = conventionPath mount name) ∧
     (fs (conventionPath mount name) = StatResult.notExist →
        FluidPluginStore.Resolve mount fs name =
          Except.error (GoErr.wrapsPluginNotFound name)) ∧
     (∀ m, fs (conventionPath mount name) = StatResult.accessDenied m →
        FluidPluginStore.Resolve mount fs name =
          Except.error (GoErr.accessFailure m)) ∧
     (∀ e, FluidPluginStore.Resolve mount fs name = Except.error e →
        (errorIsPluginNotFound e = true ↔
          fs (conventionPath mount name) = StatResult.notExist))) := by
  constructor
  · cases h : fs (conventionPath root name) <;>
      simp_all [LocalPluginStore.Resolve, errorIsPluginNotFound]
  · cases h : fs (conventionPath mount name) <;>
      simp_all [FluidPluginStore.Resolve, errorIsPluginNotFound]

/-- C5 witness: with only the hello binary present, both stores resolve
"hello" to its conventional path, and on an empty filesystem the local store
reports the distinguished not-found error. -/
theorem c5_resolve_contract_witness :
    helloFs (conventionPath "plugins" "hello") = StatResult.found ∧
    LocalPluginStore.Resolve "plugins" helloFs "hello" =
      Except.ok (conventionPath "plugins" "hello") ∧
    helloFs (conventionPath "mnt" "nope") = StatResult.notExist ∧
    FluidPluginStore.Resolve "mnt" helloFs "nope" =
      Except.error (GoErr.wrapsPluginNotFound "nope") :=
  ⟨by decide,
   (c5_resolve_contract helloFs "plugins" "mnt" "hello").1.1.mpr (by decide),
   by decide,
   (c5_resolve_contract helloFs "plugins" "mnt" "nope").2.2.2.1 (by decide)⟩

/-- Every engine call Plugin.Init performs targets the init export. -/
theorem initTrace_fn {σ : Type} (step : EngineStep σ) (p : Plugin σ) :
    ∀ c ∈ (p.Init step).2.2, c.fn = "init" := by
  intro c hc
  rcases p with ⟨pp, pv, pc⟩
  cases pv with
  | none => simp [Plugin.Init] at hc
  | some s =>
    simp [Plugin.Init] at hc
    rw [hc]

/-- Every engine call Plugin.Execute performs targets the process export. -/
theorem executeTrace_fn {σ : Type} (step : EngineStep σ) (p : Plugin σ) (input : Int) :
    ∀ c ∈ (p.Execute step input).2.2, c.fn = "process" := by
  intro c hc
  rcases p with ⟨pp, pv, pc⟩
  cases pv with
  | none => simp [Plugin.Execute] at hc
  | some s =>
    simp [Plugin.Execute] at hc
    rw [hc]

/-- Every engine call Plugin.Cleanup performs targets the cleanup export. -/
theorem cleanupTrace_fn {σ : Type} (step : EngineStep σ) (p : Plugin σ) :
    ∀ c ∈ (p.Cleanup step).2.2, c.fn = "cleanup" := by
  intro c hc
  rcases p with ⟨pp, pv, pc⟩
  cases pv with
  | none => simp [Plugin.Cleanup] at hc
  | some s =>
    simp [Plugin.Cleanup] at hc
    rw [hc]

/-- Every engine call the server's executePlugin forwards targets init,
process or cleanup; in particular the server performs no version check. -/
theorem executePlugin_calls {σ : Type} (fs : String → StatResult)
    (eng : EngineEnv σ) (step : EngineStep σ) (path : String) (input : Int) :
    ∀ c ∈ (executePlugin fs eng step path input).2,
      c.fn = "init" ∨ c.fn = "process" ∨ c.fn = "cleanup" := by
  intro c hc
  unfold executePlugin at hc
  split at hc
  · simp at hc
  · rename_i p heq
    dsimp only at hc
    split at hc
    · exact Or.inl (initTrace_fn step _ c hc)
    · simp only [List.append_assoc, List.mem_append] at hc
      rcases hc with hc | hc | hc
      · exact Or.inl (initTrace_fn step _ c hc)
      · exact Or.inr (Or.inl (executeTrace_fn step _ input c hc))
      · exact Or.inr (Or.inr (cleanupTrace_fn step _ c hc))

/-- C1 counterexample: a loaded hello plugin that has not been initialized is
not in the Initialized state, yet Execute forwards the call to the execution
engine (the engine-call trace is non-empty: it contains the process call) and
the failure is the plugin-reported ABI_ERROR_NOT_INITIALIZED code surfaced by
the host, not a host-produced NotReadyError: the claim that the call is never
forwarded to the engine is false. -/
theorem c1_execute_counterexample :
    (helloLoadedPlugin.Execute helloStep 21).2.2 = [EngineCall.mk "process" [21]] ∧
    (helloLoadedPlugin.Execute helloStep 21).2.2 ≠ [] ∧
    (helloLoadedPlugin.Execute helloStep 21).1 =
      Except.error
        "process() returned error code -1 for plugins/hello/hello.wasm: ABI_ERROR_NOT_INITIALIZED" :=
  ⟨by decide, by decide, rfl⟩

/-- C1 amended: Execute on a closed plugin (after Close, or vm nil for any
reason) fails immediately with the host-produced "plugin is closed" error,
leaves the plugin unchanged, and is never forwarded to the engine; Execute on
a loaded but not-yet-initialized plugin is forwarded to the engine (one
process call) and fails with the plugin-reported ABI_ERROR_NOT_INITIALIZED
code -1, for both repository plugin modules, rather than silently
succeeding. -/
theorem c1_execute_amended :
    (∀ (σ : Type) (step : EngineStep σ) (p : Plugin σ) (input : Int),
       p.vm = none →
       p.Execute step input = (Except.error "plugin is closed", p, [])) ∧
    (∀ input : Int,
       helloLoadedPlugin.Execute helloStep input =
         (Except.error
            "process() returned error code -1 for plugins/hello/hello.wasm: ABI_ERROR_NOT_INITIALIZED",
          helloLoadedPlugin, [EngineCall.mk "process" [wrap32 input]])) ∧
    (∀ input : Int,
       abiLoadedPlugin.Execute pluginAbiStep input =
         (Except.error
            "process() returned error code -1 for plugin_abi.wasm: ABI_ERROR_NOT_INITIALIZED",
          abiLoadedPlugin, [EngineCall.mk "process" [wrap32 input]])) := by
  refine ⟨?_, ?_, ?_⟩
  · intro σ step p input h
    rcases p with ⟨pp, pv, pc⟩
    simp only at h
    subst h
    rfl
  · intro input
    rfl
  · intro input
    rfl

/-- C1 witness: Execute on a closed hello plugin returns the host-produced
closed error with an empty engine trace. -/
theorem c1_execute_amended_witness :
    helloClosedPlugin.vm = none ∧
    helloClosedPlugin.Execute helloStep 5 =
      (Except.error "plugin is closed", helloClosedPlugin, []) :=
  ⟨rfl, c1_execute_amended.1 HelloState helloStep helloClosedPlugin 5 rfl⟩

/-- C2 counterexample: under the HTTP server's executePlugin no version
check is performed, so a loaded module that exports get_abi_version reporting
20000 (major 2, differing from the required major 1) still has init invoked
and advances to Initialized, completing the request successfully: the claim
that a major mismatch never lets the lifecycle reach Initialized is false for
the server path. -/
theorem c2_version_counterexample :
    mismatchedStep "get_abi_version" [] (AbiState.mk false 0) =
      (Except.ok [20000], AbiState.mk false 0) ∧
    Int.tdiv 20000 10000 ≠ 1 ∧
    executePlugin allFound abiEnv mismatchedStep "plugin_abi.wasm" 21 =
      (Except.ok 43,
       [EngineCall.mk "init" [], EngineCall.mk "process" [21],
        EngineCall.mk "cleanup" []]) ∧
    EngineCall.mk "get_abi_version" [] ∉
      (executePlugin allFound abiEnv mismatchedStep "plugin_abi.wasm" 21).2 :=
  ⟨rfl, by decide, rfl, by decide⟩

/-- C2 amended: in the demo host's version check, a module whose
get_abi_version reports a major version (integer division by 10000) different
from the required major 1 makes the host exit before init is ever invoked
(only the get_abi_version call is made), and absence of the export (an engine
error) never blocks progression to the init step; the HTTP server's
executePlugin, however, performs no version check at all: every engine call
it forwards is init, process or cleanup, never get_abi_version. -/
theorem c2_version_amended :
    (∀ (σ : Type) (step : EngineStep σ) (s : σ) (v : Int) (rest : List Int) (s' : σ),
       step "get_abi_version" [] s = (Except.ok (v :: rest), s') →
       Int.tdiv v 10000 ≠ 1 →
       demoVersionCheck step s =
         (DemoResult.exitIncompatible (Int.tdiv v 10000),
          [EngineCall.mk "get_abi_version" []])) ∧
    (∀ (σ : Type) (step : EngineStep σ) (s : σ) (e : String) (s' : σ),
       step "get_abi_version" [] s = (Except.error e, s') →
       demoVersionCheck step s =
         (DemoResult.proceed s', [EngineCall.mk "get_abi_version" []])) ∧
    (∀ (σ : Type) (fs : String → StatResult) (eng : EngineEnv σ)
       (step : EngineStep σ) (path : String) (input : Int),
       ∀ c ∈ (executePlugin fs eng step path input).2, c.fn ≠ "get_abi_version") := by
  refine ⟨?_, ?_, ?_⟩
  · intro σ step s v rest s' hstep hmaj
    unfold demoVersionCheck
    rw [hstep]
    simp [hmaj]
  · intro σ step s e s' hstep
    unfold demoVersionCheck
    rw [hstep]
  · intro σ fs eng step path input c hc
    rcases executePlugin_calls fs eng step path input c hc with h | h | h <;>
      simp [h]

/-- C2 witness: the demo host's version check run against the
version-mismatched module exits before init, and run against the hello
module (which lacks the export) proceeds to init. -/
theorem c2_version_amended_witness :
    mismatchedStep "get_abi_version" [] (AbiState.mk false 0) =
      (Except.ok (20000 :: []), AbiState.mk false 0) ∧
    Int.tdiv 20000 10000 ≠ 1 ∧
    demoVersionCheck mismatchedStep (AbiState.mk false 0) =
      (DemoResult.exitIncompatible (Int.tdiv 20000 10000),
       [EngineCall.mk "get_abi_version" []]) ∧
    demoVersionCheck helloStep (HelloState.mk false) =
      (DemoResult.proceed (HelloState.mk false),
       [EngineCall.mk "get_abi_version" []]) :=
  ⟨rfl, by decide,
   c2_version_amended.1 AbiState mismatchedStep (AbiState.mk false 0) 20000 []
     (AbiState.mk false 0) rfl (by decide),
   c2_version_amended.2.1 HelloState helloStep (HelloState.mk false)
     "wasmedge: function not found: get_abi_version" (HelloState.mk false) rfl⟩

/-- C3: for every decoded POST request whose plugin name is empty or contains
any character outside A-Za-z0-9_- (path separators, dots, whitespace, control
bytes, ...), handleRun returns a client-error (400) response and performs no
gateway action at all: store.Resolve is not called, no session is loaded, and
no engine call is made, so the filesystem is never touched. -/
theorem c3_invalid_name_rejected {σ : Type} (basePath : String)
    (fs : String → StatResult) (eng : EngineEnv σ) (step : EngineStep σ)
    (req : RunRequest)
    (h : req.plugin = "" ∨ ∃ c ∈ req.plugin.toList, isAllowedChar c = false) :
    (Server.handleRun basePath fs eng step "POST" (Except.ok req)).1.status = 400 ∧
    (Server.handleRun basePath fs eng step "POST" (Except.ok req)).2 = [] := by
  by_cases hp : req.plugin = ""
  · simp [Server.handleRun, hp, writeError]
  · have hval : isValidPluginName req.plugin = false := by
      rcases h with h | ⟨c, hc, hbad⟩
      · exact absurd h hp
      · have hall : req.plugin.toList.all isAllowedChar = false := by
          apply Bool.eq_false_iff.mpr
          intro h1
          have h2 := List.all_eq_true.mp h1 c hc
          rw [hbad] at h2
          exact absurd h2 (by decide)
        unfold isValidPluginName
        rw [hall, Bool.and_false]
    simp [Server.handleRun, hp, hval, writeError]

/-- C3 witness: a traversal-shaped name containing dots and a slash is
rejected with 400 and an empty gateway trace. -/
theorem c3_invalid_name_rejected_witness :
    ((RunRequest.mk "../etc" 7).plugin = "" ∨
      ∃ c ∈ (RunRequest.mk "../etc" 7).plugin.toList, isAllowedChar c = false) ∧
    ((Server.handleRun "plugins" helloFs helloEnv helloStep "POST"
        (Except.ok (RunRequest.mk "../etc" 7))).1.status = 400 ∧
     (Server.handleRun "plugins" helloFs helloEnv helloStep "POST"
        (Except.ok (RunRequest.mk "../etc" 7))).2 = []) :=
  ⟨Or.inr ⟨'.', by decide, by decide⟩,
   c3_invalid_name_rejected "plugins" helloFs helloEnv helloStep
     (RunRequest.mk "../etc" 7) (Or.inr ⟨'.', by decide, by decide⟩)⟩

/-- C4: the claim (and the repository's own ABI documentation and reference
implementation) require every negative value crossing the ABI boundary to be
a member of the closed enumeration -1, -2, -3, -4; the reference module
plugin_abi.cpp honours this at negative input (returning
ABI_ERROR_INVALID_INPUT), but the installed hello plugin forwards
(input * 2) + 1 unchecked, so process(-5) after init returns the invented
negative code -9, which is in no member of the enumeration: the code violates
the documented invariant at this input. -/
theorem c4_negative_code_enumeration :
    helloStep "process" [-5] (HelloState.mk true) =
      (Except.ok [-9], HelloState.mk true) ∧
    ((-9 : Int) < 0 ∧ (-9 : Int) ≠ ABIErrorNotInitialized ∧
      (-9 : Int) ≠ ABIErrorAlreadyInitialized ∧
      (-9 : Int) ≠ ABIErrorInvalidInput ∧ (-9 : Int) ≠ ABIErrorInternal) ∧
    pluginAbiStep "process" [-5] (AbiState.mk true 0) =
      (Except.ok [ABIErrorInvalidInput], AbiState.mk true 0) :=
  ⟨rfl, by decide, rfl⟩

/-- C8: whenever the load succeeds, init succeeds, and the process invocation
succeeds with a non-negative value v, executePlugin returns v as the request
outcome regardless of how the subsequent best-effort cleanup call behaves
(the engine behaviour on "cleanup" is unconstrained here): a cleanup failure
after a successful invocation is never the externally visible outcome. -/
theorem c8_cleanup_never_masks {σ : Type} (fs : String → StatResult)
    (eng : EngineEnv σ) (step : EngineStep σ) (path : String) (input : Int)
    (s1 s2 : σ) (r0 rest : List Int) (v : Int)
    (hfs : fs path = StatResult.found)
    (hco : eng.configOk = true) (hvm : eng.vmOk = true) (hwa : eng.wasiOk = true)
    (hlf : eng.loadFileErr = none) (hva : eng.validateErr = none)
    (hin : eng.instantiateErr = none)
    (hinit : step "init" [] eng.moduleState = (Except.ok (0 :: r0), s1))
    (hproc : step "process" [wrap32 input] s1 = (Except.ok (v :: rest), s2))
    (hv : 0 ≤ v) :
    (executePlugin fs eng step path input).1 = Except.ok v := by
  have hvn : ¬ v < 0 := not_lt.mpr hv
  have hload : LoadPlugin fs eng path =
      (Except.ok (Plugin.mk path (some eng.moduleState) true),
       [LoadEvent.acquireConfig, LoadEvent.acquireVM, LoadEvent.wasiLookup]) := by
    unfold LoadPlugin
    rw [hfs]
    simp [statErrMsg, hco, hvm, hwa, hlf, hva, hin]
  unfold executePlugin
  rw [hload]
  simp [Plugin.Init, Plugin.Execute, hinit, hproc, ABISuccess, hvn]

/-- C8 witness: the hello plugin on input 21 yields 43 through
executePlugin. -/
theorem c8_cleanup_never_masks_witness :
    (executePlugin helloFs helloEnv helloStep "plugins/hello/hello.wasm" 21).1 =
      Except.ok 43 :=
  c8_cleanup_never_masks helloFs helloEnv helloStep "plugins/hello/hello.wasm" 21
    (HelloState.mk true) (HelloState.mk true) [] [] 43
    (by decide) rfl rfl rfl rfl rfl rfl rfl rfl (by decide)

/-- C9: with the hello plugin installed under the server's plugin root, the
decoded request (plugin "hello", input 21) produces the 200 response with
output 43 (after the full resolve, load, init, process, cleanup lifecycle),
and the decoded request (plugin "hello", input -5) produces a 500
server-error response whose message contains the numeric error-code
indicator "error code -9" and carries no output value. -/
theorem c9_round_trip :
    Server.handleRun "plugins" helloFs helloEnv helloStep "POST"
      (Except.ok (RunRequest.mk "hello" 21)) =
      (HttpResponse.mk 200 (RespBody.output 43),
       [GatewayEvent.resolveCall "hello",
        GatewayEvent.sessionLoad "plugins/hello/hello.wasm",
        GatewayEvent.engineCall (EngineCall.mk "init" []),
        GatewayEvent.engineCall (EngineCall.mk "process" [21]),
        GatewayEvent.engineCall (EngineCall.mk "cleanup" [])]) ∧
    (Server.handleRun "plugins" helloFs helloEnv helloStep "POST"
        (Except.ok (RunRequest.mk "hello" (-5)))).1.status = 500 ∧
    (Server.handleRun "plugins" helloFs helloEnv helloStep "POST"
        (Except.ok (RunRequest.mk "hello" (-5)))).1.body =
      RespBody.errorMsg
        "failed to execute plugin: process() returned error code -9 for plugins/hello/hello.wasm: unknown error code -9" ∧
    strContainsSub
      "failed to execute plugin: process() returned error code -9 for plugins/hello/hello.wasm: unknown error code -9"
      "error code -9" = true :=
  ⟨by decide, by decide, by decide, by decide⟩
